import Mathlib

/-!
Verification of `src/services/requestHistoryService.js` from
claude-relay-service: a per-API-key request lifecycle audit trail.

The service records the life of every proxied request
(start, then complete or fail), enforces per-key retention bounds,
redacts sensitive headers, truncates oversized payloads, and keeps a
runtime configuration in sync with a persistent store (Redis).

The embedding below translates the JavaScript source into Lean:
  - JSON values are modelled by `JsValue`, with `stringify` playing the
    role of `JSON.stringify` and `truthy` playing the role of
    JavaScript truthiness;
  - optional JavaScript fields become `Option` values, and the
    JavaScript or-default idiom `x || d` becomes `jsOrInt` / `jsOrStr`
    (a falsy present value, 0 or the empty string, also selects the
    default, exactly as in JavaScript);
  - the Redis store of history records is an association list keyed by
    `requestId`; the Redis primitives the service calls are modelled
    from the store contract in the specification;
  - asynchronous effects (current time, generated uuid, success of a
    Redis write, outcome of a Redis read) are passed as explicit
    parameters.
-/

namespace RequestHistory

/-- JSON values, as produced and consumed by the service. -/
inductive JsValue where
  | null
  | bool (b : Bool)
  | num (n : Int)
  | str (s : String)
  | arr (elems : List JsValue)
  | obj (fields : List (String × JsValue))
deriving Repr

/-- JSON string escaping for the characters that matter to the service
(quote and backslash). -/
def escapeChar (c : Char) : String :=
  if c = Char.ofNat 34 then "\\\""
  else if c = Char.ofNat 92 then "\\\\"
  else String.singleton c

/-- Escape a string for inclusion in JSON output. -/
def escapeString (s : String) : String :=
  String.join (s.toList.map escapeChar)

mutual

/-- Model of `JSON.stringify`. -/
def stringify : JsValue → String
  | .null => "null"
  | .bool b => if b then "true" else "false"
  | .num n => toString n
  | .str s => "\"" ++ escapeString s ++ "\""
  | .arr xs => "[" ++ stringifyArr xs ++ "]"
  | .obj fs => "\x7b" ++ stringifyObj fs ++ "\x7d"

/-- Comma-separated serialization of a JSON array body. -/
def stringifyArr : List JsValue → String
  | [] => ""
  | [x] => stringify x
  | x :: y :: xs => stringify x ++ "," ++ stringifyArr (y :: xs)

/-- Comma-separated serialization of a JSON object body. -/
def stringifyObj : List (String × JsValue) → String
  | [] => ""
  | [(k, v)] => "\"" ++ escapeString k ++ "\":" ++ stringify v
  | (k, v) :: f :: fs =>
      "\"" ++ escapeString k ++ "\":" ++ stringify v ++ "," ++ stringifyObj (f :: fs)

end

/-- JavaScript truthiness of a JSON value. -/
def truthy : JsValue → Bool
  | .null => false
  | .bool b => b
  | .num n => n != 0
  | .str s => s != ""
  | .arr _ => true
  | .obj _ => true

/-- Truthiness of a possibly-missing JSON value
(`undefined` is falsy). -/
def truthyOpt : Option JsValue → Bool
  | some v => truthy v
  | none => false

/-- JavaScript `x || d` on a possibly-missing number:
a missing value and a present 0 both select the default. -/
def jsOrInt (x : Option Int) (d : Int) : Int :=
  match x with
  | some n => if n != 0 then n else d
  | none => d

/-- JavaScript `x || d` on a possibly-missing string:
a missing value and a present empty string both select the default. -/
def jsOrStr (x : Option String) (d : String) : String :=
  match x with
  | some s => if s != "" then s else d
  | none => d

/-- Look up a field of a JSON object (JavaScript property access). -/
def getField (fields : List (String × JsValue)) (k : String) : Option JsValue :=
  (fields.find? (fun p => p.1 = k)).map (fun p => p.2)

/-- JavaScript object spread followed by one explicit property,
`\x7b...o, k: v\x7d`: an existing key keeps its position and gets the
new value, a fresh key is appended. -/
def setField (fields : List (String × JsValue)) (k : String) (v : JsValue) :
    List (String × JsValue) :=
  if fields.any (fun p => p.1 = k) then
    fields.map (fun p => if p.1 = k then (k, v) else p)
  else
    fields ++ [(k, v)]

/-! ## Configuration -/

/-- The four tunables of the service (`this.enableHistoryLogging` and
friends on the `RequestHistoryService` instance). -/
structure Config where
  enableHistoryLogging : Bool
  maxRecordsPerKey : Int
  maxRequestBodySize : Int
  maxResponseBodySize : Int
deriving Repr, DecidableEq

/-- `this.defaultConfig` from the constructor. -/
def defaultConfig : Config :=
  { enableHistoryLogging := true
    maxRecordsPerKey := 1000
    maxRequestBodySize := 5000
    maxResponseBodySize := 10000 }

/-- A configuration blob as parsed from Redis: each field may be
absent (the `??` fallbacks in `initializeConfig`). -/
structure SavedConfig where
  enableHistoryLogging : Option Bool
  maxRecordsPerKey : Option Int
  maxRequestBodySize : Option Int
  maxResponseBodySize : Option Int
deriving Repr

/-- `loadConfigFromRedis`: the Redis read either raises or returns the
parsed blob (or nothing when the key is absent); a raised error is
caught, logged and turned into `null`. -/
def loadConfigFromRedis (readResult : Except Unit (Option SavedConfig)) :
    Option SavedConfig :=
  match readResult with
  | .ok r => r
  | .error _ => none

/-- Merging a saved blob over the defaults with `??`
(`savedConfig.enableHistoryLogging ?? this.defaultConfig.enableHistoryLogging`
and so on), as in the first branch of `initializeConfig`. -/
def mergeSaved (saved : SavedConfig) : Config :=
  { enableHistoryLogging :=
      saved.enableHistoryLogging.getD defaultConfig.enableHistoryLogging
    maxRecordsPerKey := saved.maxRecordsPerKey.getD defaultConfig.maxRecordsPerKey
    maxRequestBodySize :=
      saved.maxRequestBodySize.getD defaultConfig.maxRequestBodySize
    maxResponseBodySize :=
      saved.maxResponseBodySize.getD defaultConfig.maxResponseBodySize }

/-- `initializeConfig`: load the blob through `loadConfigFromRedis`;
when a blob came back, merge it over the defaults; otherwise install
the defaults and save them to Redis (`await this.saveConfigToRedis()`).
The returned Boolean records whether a save to Redis was attempted. -/
def initializeConfig (readResult : Except Unit (Option SavedConfig)) :
    Config × Bool :=
  match loadConfigFromRedis readResult with
  | some saved => (mergeSaved saved, false)
  | none => (defaultConfig, true)

/-! ## Header redaction -/

/-- The `sensitiveHeaders` denylist of `sanitizeHeaders`. -/
def sensitiveHeaders : List String :=
  ["authorization", "x-api-key", "cookie", "set-cookie", "proxy-authorization"]

/-- The fixed redaction marker. -/
def redactedMarker : String := "[REDACTED]"

/-- JavaScript `key.toLowerCase()`, character by character (header
names are ASCII, where this agrees with the JavaScript builtin). -/
def jsToLowerCase (s : String) : String :=
  String.mk (s.toList.map Char.toLower)

/-- `sanitizeHeaders(headers)`: falsy input yields the empty mapping;
otherwise every entry whose lowercased key is on the denylist has its
value replaced by the marker (the key keeps its casing) and every
other entry passes through unchanged. -/
def sanitizeHeaders (headers : Option (List (String × String))) :
    List (String × String) :=
  match headers with
  | none => []
  | some hs =>
      hs.map (fun p =>
        if jsToLowerCase p.1 ∈ sensitiveHeaders then (p.1, redactedMarker) else p)

/-! ## History records and the Redis store -/

/-- A history record, as built by `startRequest` and updated by
`completeRequest` / `failRequest`. Fields that a given lifecycle stage
does not set are `Option` (a JavaScript `undefined` property vanishes
when the record is serialized to the store). -/
structure HistoryRecord where
  requestId : String
  timestamp : String
  apiKeyId : String
  apiKeyName : String
  model : String
  status : String
  requestBody : Option (List (String × JsValue))
  headers : List (String × String)
  startTime : Int
  endTime : Option Int
  duration : Option Int
  responseBody : Option JsValue
  statusCode : Option Int
  inputTokens : Option Int
  outputTokens : Option Int
  cacheCreateTokens : Option Int
  cacheReadTokens : Option Int
  totalTokens : Option Int
  error : Option String
deriving Repr

/-- The Redis history store: records keyed by `requestId`. -/
abbrev Store := List (String × HistoryRecord)

/-- Modelled from the spec: `redis.saveRequestHistory(record)` is the
store contract `recordPut(record)`, an upsert by `requestId`. -/
def saveRequestHistory (store : Store) (r : HistoryRecord) : Store :=
  (r.requestId, r) :: List.filter (fun p => p.1 ≠ r.requestId) store

/-- Modelled from the spec: `redis.getRequestHistory(requestId)` is the
store contract `recordGet(requestId) -> record|absent`. -/
def getRequestHistoryStore (store : Store) (requestId : String) :
    Option HistoryRecord :=
  (List.find? (fun p => p.1 = requestId) store).map (fun p => p.2)

/-! ## Lifecycle: start -/

/-- The fixed truncation marker for oversized request bodies. -/
def truncationMarker : String := "[TRUNCATED - Large Messages]"

/-- The request-body size handling of `startRequest`: when the body is
truthy and its serialization exceeds `maxRequestBodySize`, the body is
rebuilt by spreading it and writing `messages: requestBody.messages ?
marker : requestBody.messages` — so the `messages` field is replaced
by the marker only when it is truthy, and (at the JSON level, where an
`undefined` property vanishes) the body is otherwise unchanged. -/
def truncateRequestBody (maxRequestBodySize : Int)
    (requestBody : Option (List (String × JsValue))) :
    Option (List (String × JsValue)) :=
  match requestBody with
  | none => none
  | some fields =>
      if ((stringify (.obj fields)).length : Int) > maxRequestBodySize then
        if truthyOpt (getField fields "messages") then
          some (setField fields "messages" (.str truncationMarker))
        else
          some fields
      else
        some fields

/-- The caller-supplied data of `startRequest(requestData)`. -/
structure RequestData where
  apiKeyId : String
  apiKeyName : String
  model : Option String
  requestBody : Option (List (String × JsValue))
  headers : Option (List (String × String))
deriving Repr

/-- The model resolution of `startRequest`:
`requestData.model || requestData.requestBody?.model || 'unknown'`. -/
def resolveModel (rd : RequestData) : String :=
  jsOrStr rd.model
    (match rd.requestBody.bind (fun fs => getField fs "model") with
     | some (.str s) => jsOrStr (some s) "unknown"
     | _ => "unknown")

/-- `startRequest(requestData)`: a no-op returning `null` when logging
is disabled; otherwise builds a `pending` record with a fresh
`requestId`, truncated body, sanitized headers and `startTime = now`,
persists it and returns the id. The generated uuid, the timestamp
string and `Date.now()` are passed in explicitly. `startRecord` is the
`historyRecord` literal built inside `startRequest`. -/
def startRecord (cfg : Config) (rd : RequestData) (requestId : String)
    (timestamp : String) (now : Int) : HistoryRecord :=
  { requestId := requestId
    timestamp := timestamp
    apiKeyId := rd.apiKeyId
    apiKeyName := rd.apiKeyName
    model := resolveModel rd
    status := "pending"
    requestBody := truncateRequestBody cfg.maxRequestBodySize rd.requestBody
    headers := sanitizeHeaders rd.headers
    startTime := now
    endTime := none
    duration := none
    responseBody := none
    statusCode := none
    inputTokens := none
    outputTokens := none
    cacheCreateTokens := none
    cacheReadTokens := none
    totalTokens := none
    error := none }

/-- The body of `startRequest` around `startRecord`: a no-op when
logging is disabled, otherwise persist the built record and return
the generated id. -/
def startRequest (cfg : Config) (store : Store) (rd : RequestData)
    (requestId : String) (timestamp : String) (now : Int) :
    Store × Option String :=
  if cfg.enableHistoryLogging = false then
    (store, none)
  else
    (saveRequestHistory store (startRecord cfg rd requestId timestamp now),
     some requestId)

/-! ## Lifecycle: complete -/

/-- JavaScript `s.substring(0, n)`: the first n characters of s, or
all of s when it is shorter. -/
def jsSubstring (s : String) (n : Nat) : String :=
  String.mk (s.toList.take n)

/-- The caller-supplied data of `completeRequest(requestId,
responseData)`. -/
structure ResponseData where
  responseBody : Option JsValue
  statusCode : Option Int
  inputTokens : Option Int
  outputTokens : Option Int
  cacheCreateTokens : Option Int
  cacheReadTokens : Option Int
deriving Repr

/-- The response-body size handling of `completeRequest`: when the body
is truthy and its serialization exceeds `maxResponseBodySize`, it is
replaced by the structural summary with `type`, `originalLength` and a
1000-character `preview` followed by an ellipsis. -/
def truncateResponseBody (maxResponseBodySize : Int)
    (responseBody : Option JsValue) : Option JsValue :=
  match responseBody with
  | none => none
  | some v =>
      if truthy v ∧ ((stringify v).length : Int) > maxResponseBodySize then
        some (.obj
          [("type", .str "truncated"),
           ("originalLength", .num ((stringify v).length : Int)),
           ("preview", .str (jsSubstring (stringify v) 1000 ++ "..."))])
      else
        some v

/-- `completeRequest(requestId, responseData)`: a no-op when logging is
disabled or the id is falsy or no record exists; otherwise merges onto
the fetched record `status success`, `duration = endTime - startTime`,
the (possibly truncated) response body, the pass-through `statusCode`,
the four token counters with `|| 0` defaults, their sum `totalTokens`,
and `endTime`, then persists the merged record. `Date.now()` is passed
in as `endTime`. `completedRecord` is the `updatedRecord` merge built
inside `completeRequest`. -/
def completedRecord (cfg : Config) (existing : HistoryRecord)
    (rd : ResponseData) (endTime : Int) : HistoryRecord :=
  { existing with
    status := "success"
    duration := some (endTime - existing.startTime)
    responseBody := truncateResponseBody cfg.maxResponseBodySize rd.responseBody
    statusCode := rd.statusCode
    inputTokens := some (jsOrInt rd.inputTokens 0)
    outputTokens := some (jsOrInt rd.outputTokens 0)
    cacheCreateTokens := some (jsOrInt rd.cacheCreateTokens 0)
    cacheReadTokens := some (jsOrInt rd.cacheReadTokens 0)
    totalTokens := some
      (jsOrInt rd.inputTokens 0 + jsOrInt rd.outputTokens 0 +
       jsOrInt rd.cacheCreateTokens 0 + jsOrInt rd.cacheReadTokens 0)
    endTime := some endTime }

/-- The body of `completeRequest` around `completedRecord`: the no-op
guards, the fetch, and the persist of the merged record. -/
def completeRequest (cfg : Config) (store : Store) (requestId : String)
    (rd : ResponseData) (endTime : Int) : Store :=
  if cfg.enableHistoryLogging = false ∨ requestId = "" then
    store
  else
    match getRequestHistoryStore store requestId with
    | none => store
    | some existing =>
        saveRequestHistory store (completedRecord cfg existing rd endTime)

/-! ## Lifecycle: fail -/

/-- The caller-supplied data of `failRequest(requestId, errorData)`. -/
structure ErrorData where
  error : Option String
  statusCode : Option Int
deriving Repr

/-- `failRequest(requestId, errorData)`: a no-op when logging is
disabled or the id is falsy or no record exists; otherwise merges onto
the fetched record `status error`, `duration`, the error message with
`|| 'Unknown error'` default and the status code with `|| 500`
default, then persists the merged record. `failedRecord` is the
`updatedRecord` merge built inside `failRequest`. -/
def failedRecord (existing : HistoryRecord) (ed : ErrorData)
    (endTime : Int) : HistoryRecord :=
  { existing with
    status := "error"
    duration := some (endTime - existing.startTime)
    error := some (jsOrStr ed.error "Unknown error")
    statusCode := some (jsOrInt ed.statusCode 500)
    endTime := some endTime }

/-- The body of `failRequest` around `failedRecord`: the no-op guards,
the fetch, and the persist of the merged record. -/
def failRequest (cfg : Config) (store : Store) (requestId : String)
    (ed : ErrorData) (endTime : Int) : Store :=
  if cfg.enableHistoryLogging = false ∨ requestId = "" then
    store
  else
    match getRequestHistoryStore store requestId with
    | none => store
    | some existing =>
        saveRequestHistory store (failedRecord existing ed endTime)

/-- `getRequestDetails(requestId)`: the single-record fetch, delegating
to the store. -/
def getRequestDetails (store : Store) (requestId : String) :
    Option HistoryRecord :=
  getRequestHistoryStore store requestId

/-! ## Retention enforcement -/

/-- The trim decision of `enforceRecordLimit(apiKeyId)`: given the
observed record count, returns the number of oldest records to remove,
or nothing when no cleanup is triggered. A falsy `apiKeyId` returns
immediately; otherwise cleanup fires only when the count exceeds
`maxRecordsPerKey + 100`, and then removes
`count - maxRecordsPerKey` records. -/
def enforceRecordLimit (maxRecordsPerKey : Int) (apiKeyId : String)
    (recordCount : Int) : Option Int :=
  if apiKeyId = "" then none
  else if recordCount > maxRecordsPerKey + 100 then
    some (recordCount - maxRecordsPerKey)
  else none

/-- Modelled from the spec: `redis.removeOldestRequestHistory(key, n)`
is the store contract `recordTrimOldest(ownerKey, n)`, removing the n
oldest records; the records of a key are listed oldest first. -/
def removeOldestRequestHistory (records : List HistoryRecord) (n : Nat) :
    List HistoryRecord :=
  records.drop n

/-- `enforceRecordLimit` acting on the oldest-first record list of one
key: the count observed is the length of the list, and a triggered
cleanup removes the computed number of oldest records. -/
def enforceRecordLimitOnList (maxRecordsPerKey : Int) (apiKeyId : String)
    (records : List HistoryRecord) : List HistoryRecord :=
  match enforceRecordLimit maxRecordsPerKey apiKeyId (records.length : Int) with
  | some excess => removeOldestRequestHistory records excess.toNat
  | none => records

/-! ## Configuration update -/

/-- A partial configuration as passed to `updateConfig(newConfig)`:
each field may be absent. A present numeric field still has to pass
the `typeof === 'number' && > 0` validation to be applied. -/
structure PartialConfig where
  enableHistoryLogging : Option Bool
  maxRecordsPerKey : Option Int
  maxRequestBodySize : Option Int
  maxResponseBodySize : Option Int
deriving Repr

/-- One numeric field of `updateConfig`: applied only when present and
strictly positive, otherwise the current value is kept. -/
def applyNumField (cur : Int) (newVal : Option Int) : Int :=
  match newVal with
  | some n => if n > 0 then n else cur
  | none => cur

/-- The in-memory merge performed by `updateConfig` before saving:
each field present and valid overwrites, the rest keep their value. -/
def mergeConfig (cfg : Config) (nc : PartialConfig) : Config :=
  { enableHistoryLogging := nc.enableHistoryLogging.getD cfg.enableHistoryLogging
    maxRecordsPerKey := applyNumField cfg.maxRecordsPerKey nc.maxRecordsPerKey
    maxRequestBodySize := applyNumField cfg.maxRequestBodySize nc.maxRequestBodySize
    maxResponseBodySize :=
      applyNumField cfg.maxResponseBodySize nc.maxResponseBodySize }

/-- The outcome of `updateConfig`: the new in-memory config, the
config blob handed to `saveConfigToRedis` (the full merged config),
and the Boolean returned to the caller. -/
structure UpdateResult where
  newCfg : Config
  attempted : Config
  returned : Bool
deriving Repr, DecidableEq

/-- `updateConfig(newConfig)`: validates and applies each field in
memory, then saves the full merged config to Redis; returns `true`
exactly when the save succeeded. The success of the Redis write is
passed in as `saveOk`. -/
def updateConfig (cfg : Config) (nc : PartialConfig) (saveOk : Bool) :
    UpdateResult :=
  let merged := mergeConfig cfg nc
  { newCfg := merged, attempted := merged, returned := saveOk }

/-! ## Helper lemmas -/

/-- Fetching by the id just written returns the written record. -/
theorem getRequestHistoryStore_save (store : Store) (r : HistoryRecord) :
    getRequestHistoryStore (saveRequestHistory store r) r.requestId = some r := by
  simp [getRequestHistoryStore, saveRequestHistory, List.find?]

/-- The JavaScript zero-defaulting `x || 0` coincides with `getD 0`. -/
theorem jsOrInt_zero (x : Option Int) : jsOrInt x 0 = x.getD 0 := by
  cases x with
  | none => rfl
  | some n =>
      by_cases h : n = 0 <;> simp [jsOrInt, h]

/-- After the field-replacing map of `setField`, the sought key is
found with the new value (given the key occurs). -/
theorem find?_map_replace_self (k : String) (v : JsValue) :
    ∀ t : List (String × JsValue), t.any (fun p => p.1 = k) = true →
      List.find? (fun p => p.1 = k)
        (t.map (fun p => if p.1 = k then (k, v) else p)) = some (k, v)
  | [], h => by simp at h
  | p :: t, h => by
      by_cases hp : p.1 = k
      · rw [List.map_cons, if_pos hp, List.find?_cons_of_pos _ (by simp)]
      · have ht : t.any (fun p => p.1 = k) = true := by
          simp only [List.any_cons, Bool.or_eq_true, decide_eq_true_eq] at h
          rcases h with h | h
          · exact absurd h hp
          · simpa using h
        rw [List.map_cons, if_neg hp, List.find?_cons_of_neg _ (by simp [hp]),
          find?_map_replace_self k v t ht]

/-- The field-replacing map of `setField` does not disturb lookups of
a different key. -/
theorem find?_map_replace_ne (k : String) (v : JsValue) (k' : String)
    (hne : k' ≠ k) :
    ∀ t : List (String × JsValue),
      List.find? (fun p => p.1 = k')
        (t.map (fun p => if p.1 = k then (k, v) else p))
        = List.find? (fun p => p.1 = k') t
  | [] => rfl
  | p :: t => by
      have hkk : k ≠ k' := Ne.symm hne
      by_cases hp : p.1 = k
      · rw [List.map_cons, if_pos hp, List.find?_cons_of_neg _ (by simp [hkk]),
          List.find?_cons_of_neg _ (by simp [hp, hkk]),
          find?_map_replace_ne k v k' hne t]
      · rw [List.map_cons, if_neg hp]
        by_cases hp' : p.1 = k'
        · rw [List.find?_cons_of_pos _ (by simp [hp']),
            List.find?_cons_of_pos _ (by simp [hp'])]
        · rw [List.find?_cons_of_neg _ (by simp [hp']),
            List.find?_cons_of_neg _ (by simp [hp']),
            find?_map_replace_ne k v k' hne t]

/-- Reading back the field just set yields the new value. -/
theorem getField_setField_self (fields : List (String × JsValue))
    (k : String) (v : JsValue) :
    getField (setField fields k v) k = some v := by
  unfold setField
  by_cases hany : fields.any (fun p => p.1 = k)
  · rw [if_pos hany]
    simp only [getField]
    rw [find?_map_replace_self k v fields hany]
    rfl
  · rw [if_neg hany]
    simp only [getField]
    rw [List.find?_append]
    have hnone : List.find? (fun p => p.1 = k) fields = none := by
      rw [List.find?_eq_none]
      intro x hx
      simp only [List.any_eq_true] at hany
      push_neg at hany
      simpa using hany x hx
    rw [hnone]
    simp

/-- Setting one field leaves every other field unchanged. -/
theorem getField_setField_ne (fields : List (String × JsValue))
    (k : String) (v : JsValue) (k' : String) (hne : k' ≠ k) :
    getField (setField fields k v) k' = getField fields k' := by
  unfold setField
  by_cases hany : fields.any (fun p => p.1 = k)
  · rw [if_pos hany]
    simp only [getField]
    rw [find?_map_replace_ne k v k' hne fields]
  · rw [if_neg hany]
    simp only [getField]
    rw [List.find?_append]
    have h1 : List.find? (fun p => p.1 = k') [(k, v)] = none := by
      simp [Ne.symm hne]
    rw [h1]
    simp

/-- Redacting one header entry is idempotent. -/
theorem sanitizeEntry_idem (p : String × String) :
    (fun q : String × String =>
        if jsToLowerCase q.1 ∈ sensitiveHeaders then (q.1, redactedMarker) else q)
      ((fun q : String × String =>
        if jsToLowerCase q.1 ∈ sensitiveHeaders then (q.1, redactedMarker) else q) p)
    = (fun q : String × String =>
        if jsToLowerCase q.1 ∈ sensitiveHeaders then (q.1, redactedMarker) else q) p := by
  by_cases h : jsToLowerCase p.1 ∈ sensitiveHeaders <;> simp [h]

/-- Header redaction is idempotent. -/
theorem sanitizeHeaders_idem (h : Option (List (String × String))) :
    sanitizeHeaders (some (sanitizeHeaders h)) = sanitizeHeaders h := by
  cases h with
  | none => rfl
  | some hs =>
      simp only [sanitizeHeaders, List.map_map]
      refine List.map_congr_left ?_
      intro p _
      exact sanitizeEntry_idem p

/-- An oversized truthy request body with a truthy messages field is
rebuilt with the marker in place of messages. -/
theorem truncateRequestBody_over (maxSize : Int)
    (fields : List (String × JsValue))
    (hover : ((stringify (JsValue.obj fields)).length : Int) > maxSize)
    (hmsg : truthyOpt (getField fields "messages") = true) :
    truncateRequestBody maxSize (some fields)
      = some (setField fields "messages" (JsValue.str truncationMarker)) := by
  simp [truncateRequestBody, hover, hmsg]

/-- An oversized request body without a truthy messages field is kept
unchanged. -/
theorem truncateRequestBody_over_nomsg (maxSize : Int)
    (fields : List (String × JsValue))
    (hover : ((stringify (JsValue.obj fields)).length : Int) > maxSize)
    (hmsg : truthyOpt (getField fields "messages") = false) :
    truncateRequestBody maxSize (some fields) = some fields := by
  simp [truncateRequestBody, hover, hmsg]

/-- A request body within the size limit is kept unchanged. -/
theorem truncateRequestBody_small (maxSize : Int)
    (fields : List (String × JsValue))
    (hsmall : ¬ ((stringify (JsValue.obj fields)).length : Int) > maxSize) :
    truncateRequestBody maxSize (some fields) = some fields := by
  simp [truncateRequestBody, hsmall]

/-- An oversized truthy response body is replaced by the structural
summary. -/
theorem truncateResponseBody_over (maxSize : Int) (v : JsValue)
    (htr : truthy v = true)
    (hover : ((stringify v).length : Int) > maxSize) :
    truncateResponseBody maxSize (some v)
      = some (JsValue.obj
          [("type", JsValue.str "truncated"),
           ("originalLength", JsValue.num ((stringify v).length : Int)),
           ("preview", JsValue.str (jsSubstring (stringify v) 1000 ++ "..."))]) := by
  simp [truncateResponseBody, htr, hover]

/-- A response body within the size limit is kept unchanged. -/
theorem truncateResponseBody_small (maxSize : Int) (v : JsValue)
    (hsmall : ¬ ((stringify v).length : Int) > maxSize) :
    truncateResponseBody maxSize (some v) = some v := by
  simp [truncateResponseBody, hsmall]

/-- A falsy response body is kept unchanged whatever its size: the
truncation is guarded on the truthiness of the body. -/
theorem truncateResponseBody_falsy (maxSize : Int) (v : JsValue)
    (hfalsy : truthy v = false) :
    truncateResponseBody maxSize (some v) = some v := by
  simp [truncateResponseBody, hfalsy]

/-- The truncation preview, first 1000 characters plus the three
marker characters, never exceeds 1003 characters. -/
theorem jsSubstring_append_length (s : String) :
    (jsSubstring s 1000 ++ "...").length ≤ 1003 := by
  have h1 : (jsSubstring s 1000).length ≤ 1000 := by
    show (s.toList.take 1000).length ≤ 1000
    exact List.length_take_le 1000 s.toList
  have h3 : ("..." : String).length = 3 := rfl
  have h2 : (jsSubstring s 1000 ++ "...").length
      = (jsSubstring s 1000).length + 3 := by
    rw [String.length_append, h3]
  omega

/-- Fetching after a complete on a present record with a matching id
yields the merged record. -/
theorem completeRequest_get (cfg : Config) (store : Store)
    (requestId : String) (resp : ResponseData) (endTime : Int)
    (existing : HistoryRecord)
    (hlog : cfg.enableHistoryLogging = true) (hrid : requestId ≠ "")
    (hex : getRequestHistoryStore store requestId = some existing)
    (hexid : existing.requestId = requestId) :
    getRequestDetails (completeRequest cfg store requestId resp endTime) requestId
      = some (completedRecord cfg existing resp endTime) := by
  unfold completeRequest
  rw [if_neg (by simp [hlog, hrid]), hex]
  show getRequestHistoryStore
    (saveRequestHistory store (completedRecord cfg existing resp endTime))
    requestId = _
  have h2 : (completedRecord cfg existing resp endTime).requestId = requestId :=
    hexid
  rw [← h2]
  exact getRequestHistoryStore_save _ _

/-- Fetching after a fail on a present record with a matching id
yields the merged record. -/
theorem failRequest_get (cfg : Config) (store : Store)
    (requestId : String) (ed : ErrorData) (endTime : Int)
    (existing : HistoryRecord)
    (hlog : cfg.enableHistoryLogging = true) (hrid : requestId ≠ "")
    (hex : getRequestHistoryStore store requestId = some existing)
    (hexid : existing.requestId = requestId) :
    getRequestDetails (failRequest cfg store requestId ed endTime) requestId
      = some (failedRecord existing ed endTime) := by
  unfold failRequest
  rw [if_neg (by simp [hlog, hrid]), hex]
  show getRequestHistoryStore
    (saveRequestHistory store (failedRecord existing ed endTime))
    requestId = _
  have h2 : (failedRecord existing ed endTime).requestId = requestId := hexid
  rw [← h2]
  exact getRequestHistoryStore_save _ _

/-- With logging enabled, a start persists exactly the built record. -/
theorem startRequest_store (cfg : Config) (store : Store) (rd : RequestData)
    (requestId timestamp : String) (now : Int)
    (hlog : cfg.enableHistoryLogging = true) :
    (startRequest cfg store rd requestId timestamp now).1
      = saveRequestHistory store (startRecord cfg rd requestId timestamp now) := by
  simp [startRequest, hlog]

/-- Fetching right after a start yields the built record. -/
theorem startRequest_get (cfg : Config) (store : Store) (rd : RequestData)
    (requestId timestamp : String) (now : Int)
    (hlog : cfg.enableHistoryLogging = true) :
    getRequestHistoryStore (startRequest cfg store rd requestId timestamp now).1
      requestId = some (startRecord cfg rd requestId timestamp now) := by
  rw [startRequest_store cfg store rd requestId timestamp now hlog]
  exact getRequestHistoryStore_save _ _

/-! ## Sample data for concrete instantiations -/

/-- A concrete history record used to build concrete stores. -/
def sampleRecord : HistoryRecord :=
  { requestId := "id0"
    timestamp := "2024-01-01T00:00:00.000Z"
    apiKeyId := "key1"
    apiKeyName := "team-key"
    model := "unknown"
    status := "pending"
    requestBody := none
    headers := []
    startTime := 0
    endTime := none
    duration := none
    responseBody := none
    statusCode := none
    inputTokens := none
    outputTokens := none
    cacheCreateTokens := none
    cacheReadTokens := none
    totalTokens := none
    error := none }

/-- A concrete start request payload. -/
def sampleRequestData : RequestData :=
  { apiKeyId := "key1"
    apiKeyName := "team-key"
    model := some "claude"
    requestBody := none
    headers := none }

/-- A concrete completion payload with two token counters missing. -/
def sampleResponseData : ResponseData :=
  { responseBody := none
    statusCode := some 200
    inputTokens := some 3
    outputTokens := none
    cacheCreateTokens := some 2
    cacheReadTokens := none }

/-- A concrete failure payload supplying only falsy values. -/
def falsyErrorData : ErrorData :=
  { error := some ""
    statusCode := some 0 }

/-- A concrete failure payload supplying nothing. -/
def emptyErrorData : ErrorData :=
  { error := none
    statusCode := none }

/-- A concrete request body without a messages field. -/
def noMessagesBody : List (String × JsValue) :=
  [("data", JsValue.str "hello")]

/-- A concrete request body with a truthy messages field. -/
def messagesBody : List (String × JsValue) :=
  [("messages", JsValue.arr [JsValue.str "hi"]), ("model", JsValue.str "m")]

/-- The default config with a tiny request-body limit. -/
def cfgTinyReq : Config :=
  { defaultConfig with maxRequestBodySize := 1 }

/-- The default config with a tiny response-body limit. -/
def cfgTinyResp : Config :=
  { defaultConfig with maxResponseBodySize := 1 }

/-- A concrete partial config with one invalid and one valid field. -/
def invalidPartial : PartialConfig :=
  { enableHistoryLogging := some false
    maxRecordsPerKey := some (-5)
    maxRequestBodySize := none
    maxResponseBodySize := none }

/-- A concrete partial config with a single valid field. -/
def validPartial : PartialConfig :=
  { enableHistoryLogging := none
    maxRecordsPerKey := some 2000
    maxRequestBodySize := none
    maxResponseBodySize := none }

/-! ## Claim C4: header redaction -/

/-- C4: `sanitizeHeaders` is idempotent; every entry whose lowercased
key is on the fixed denylist (authorization, x-api-key, cookie,
set-cookie, proxy-authorization) appears in the output with its value
replaced by the fixed redaction marker and its key casing intact,
every other entry passes through unchanged, the output has one entry
per input entry, and absent input yields the empty mapping. -/
theorem sanitizeHeaders_spec :
    (∀ h, sanitizeHeaders (some (sanitizeHeaders h)) = sanitizeHeaders h) ∧
    (∀ hs k v, (k, v) ∈ hs →
      (jsToLowerCase k ∈ sensitiveHeaders →
        (k, redactedMarker) ∈ sanitizeHeaders (some hs)) ∧
      (jsToLowerCase k ∉ sensitiveHeaders →
        (k, v) ∈ sanitizeHeaders (some hs))) ∧
    (∀ hs, (sanitizeHeaders (some hs)).length = hs.length) ∧
    sanitizeHeaders none = [] ∧
    sensitiveHeaders =
      ["authorization", "x-api-key", "cookie", "set-cookie",
       "proxy-authorization"] := by
  refine ⟨sanitizeHeaders_idem, ?_, ?_, rfl, rfl⟩
  · intro hs k v hmem
    constructor
    · intro hk
      have h2 := List.mem_map_of_mem
        (fun p : String × String =>
          if jsToLowerCase p.1 ∈ sensitiveHeaders then (p.1, redactedMarker) else p)
        hmem
      simpa [sanitizeHeaders, hk] using h2
    · intro hk
      have h2 := List.mem_map_of_mem
        (fun p : String × String =>
          if jsToLowerCase p.1 ∈ sensitiveHeaders then (p.1, redactedMarker) else p)
        hmem
      simpa [sanitizeHeaders, hk] using h2
  · intro hs
    simp [sanitizeHeaders]

/-- C4 witness: at a concrete mapping, Authorization is redacted with
its casing kept and accept passes through. -/
theorem sanitizeHeaders_spec_witness :
    ("Authorization", redactedMarker)
      ∈ sanitizeHeaders (some [("Authorization", "secret"), ("accept", "json")]) ∧
    ("accept", "json")
      ∈ sanitizeHeaders (some [("Authorization", "secret"), ("accept", "json")]) := by
  have h := sanitizeHeaders_spec
  exact ⟨(h.2.1 _ "Authorization" "secret" (by decide)).1 (by decide),
         (h.2.1 _ "accept" "json" (by decide)).2 (by decide)⟩

/-! ## Claim C2: retention enforcement -/

/-- C2: with a nonempty owning key, the retention enforcer removes
records iff the observed count strictly exceeds maxRecordsPerKey +
100, and then removes exactly count - maxRecordsPerKey oldest
records, leaving exactly maxRecordsPerKey; with maxRecordsPerKey =
1000, a count of 1101 removes exactly 101 and a count of 1099 removes
none. -/
theorem enforceRecordLimit_spec (maxRecordsPerKey : Int) (apiKeyId : String)
    (records : List HistoryRecord)
    (hkey : apiKeyId ≠ "") (hmax : 0 < maxRecordsPerKey) :
    ((enforceRecordLimit maxRecordsPerKey apiKeyId (records.length : Int)).isSome
      ↔ (records.length : Int) > maxRecordsPerKey + 100) ∧
    ((records.length : Int) > maxRecordsPerKey + 100 →
      enforceRecordLimit maxRecordsPerKey apiKeyId (records.length : Int)
          = some ((records.length : Int) - maxRecordsPerKey) ∧
      enforceRecordLimitOnList maxRecordsPerKey apiKeyId records
          = removeOldestRequestHistory records
              ((records.length : Int) - maxRecordsPerKey).toNat ∧
      ((enforceRecordLimitOnList maxRecordsPerKey apiKeyId records).length : Int)
          = maxRecordsPerKey) ∧
    enforceRecordLimit 1000 apiKeyId 1101 = some 101 ∧
    enforceRecordLimit 1000 apiKeyId 1099 = none := by
  refine ⟨?_, ?_, ?_, ?_⟩
  · simp only [enforceRecordLimit, if_neg hkey]
    by_cases h : (records.length : Int) > maxRecordsPerKey + 100 <;> simp [h]
  · intro h
    refine ⟨?_, ?_, ?_⟩
    · simp [enforceRecordLimit, hkey, h]
    · simp [enforceRecordLimitOnList, enforceRecordLimit, hkey, h]
    · simp [enforceRecordLimitOnList, enforceRecordLimit, hkey, h,
        removeOldestRequestHistory]
      omega
  · simp only [enforceRecordLimit, if_neg hkey]
    norm_num
  · simp only [enforceRecordLimit, if_neg hkey]
    norm_num

/-- C2 witness: at maxRecordsPerKey 1000 and key key1, a count of
1101 removes exactly 101 oldest records leaving 1000, while a count
of 1099 removes none. -/
theorem enforceRecordLimit_spec_witness :
    enforceRecordLimit 1000 "key1" 1101 = some 101 ∧
    enforceRecordLimit 1000 "key1" 1099 = none ∧
    ((enforceRecordLimitOnList 1000 "key1"
        (List.replicate 1101 sampleRecord)).length : Int) = 1000 := by
  have h := enforceRecordLimit_spec 1000 "key1"
    (List.replicate 1101 sampleRecord) (by decide) (by norm_num)
  have hover : ((List.replicate 1101 sampleRecord).length : Int) > 1000 + 100 := by
    rw [List.length_replicate]
    norm_num
  exact ⟨h.2.2.1, h.2.2.2, (h.2.1 hover).2.2⟩

/-! ## Claim C3: configuration initialization -/

/-- C3 counterexample: a failing configuration read still leads to an
attempted persist of the defaults, because the failure is swallowed
inside the load step; this contradicts the claim that on read failure
the defaults are kept in memory only with no persist attempt. -/
theorem initializeConfig_counterexample :
    initializeConfig (Except.error ()) = (defaultConfig, true) := rfl

/-- C3 amended: a failed read is swallowed by loadConfigFromRedis and
treated exactly like an absent blob, so the defaults are installed in
memory and a persist of the defaults is attempted in both cases; only
a successfully read blob avoids the persist attempt. -/
theorem initializeConfig_spec (saved : SavedConfig) :
    initializeConfig (Except.error ()) = (defaultConfig, true) ∧
    initializeConfig (Except.ok none) = (defaultConfig, true) ∧
    initializeConfig (Except.ok (some saved)) = (mergeSaved saved, false) :=
  ⟨rfl, rfl, rfl⟩

/-! ## Claim C6: configuration update -/

/-- C6: each field of the partial config that is present and valid (a
boolean for the switch, a strictly positive number for the three
limits) overwrites the in-memory value, absent or invalid fields are
left unchanged without rejecting the rest of the update, the persist
writes the full merged config, and the call returns true exactly when
the persist succeeded. -/
theorem updateConfig_spec (cfg : Config) (nc : PartialConfig) (saveOk : Bool) :
    (∀ b, nc.enableHistoryLogging = some b →
      (updateConfig cfg nc saveOk).newCfg.enableHistoryLogging = b) ∧
    (nc.enableHistoryLogging = none →
      (updateConfig cfg nc saveOk).newCfg.enableHistoryLogging
        = cfg.enableHistoryLogging) ∧
    (∀ n, nc.maxRecordsPerKey = some n → 0 < n →
      (updateConfig cfg nc saveOk).newCfg.maxRecordsPerKey = n) ∧
    (∀ n, nc.maxRecordsPerKey = some n → ¬ 0 < n →
      (updateConfig cfg nc saveOk).newCfg.maxRecordsPerKey
        = cfg.maxRecordsPerKey) ∧
    (nc.maxRecordsPerKey = none →
      (updateConfig cfg nc saveOk).newCfg.maxRecordsPerKey
        = cfg.maxRecordsPerKey) ∧
    (∀ n, nc.maxRequestBodySize = some n → 0 < n →
      (updateConfig cfg nc saveOk).newCfg.maxRequestBodySize = n) ∧
    (∀ n, nc.maxRequestBodySize = some n → ¬ 0 < n →
      (updateConfig cfg nc saveOk).newCfg.maxRequestBodySize
        = cfg.maxRequestBodySize) ∧
    (nc.maxRequestBodySize = none →
      (updateConfig cfg nc saveOk).newCfg.maxRequestBodySize
        = cfg.maxRequestBodySize) ∧
    (∀ n, nc.maxResponseBodySize = some n → 0 < n →
      (updateConfig cfg nc saveOk).newCfg.maxResponseBodySize = n) ∧
    (∀ n, nc.maxResponseBodySize = some n → ¬ 0 < n →
      (updateConfig cfg nc saveOk).newCfg.maxResponseBodySize
        = cfg.maxResponseBodySize) ∧
    (nc.maxResponseBodySize = none →
      (updateConfig cfg nc saveOk).newCfg.maxResponseBodySize
        = cfg.maxResponseBodySize) ∧
    (updateConfig cfg nc saveOk).attempted = (updateConfig cfg nc saveOk).newCfg ∧
    (updateConfig cfg nc saveOk).returned = saveOk := by
  refine ⟨?_, ?_, ?_, ?_, ?_, ?_, ?_, ?_, ?_, ?_, ?_, rfl, rfl⟩ <;>
    intros <;> simp_all [updateConfig, mergeConfig, applyNumField]

/-- C6 witness: an update supplying the invalid maxRecordsPerKey -5
together with a valid logging switch keeps maxRecordsPerKey, applies
the switch, and reports the persist outcome. -/
theorem updateConfig_spec_witness :
    (updateConfig defaultConfig invalidPartial true).newCfg.maxRecordsPerKey
      = defaultConfig.maxRecordsPerKey ∧
    (updateConfig defaultConfig invalidPartial true).newCfg.enableHistoryLogging
      = false ∧
    (updateConfig defaultConfig invalidPartial true).returned = true := by
  have h := updateConfig_spec defaultConfig invalidPartial true
  exact ⟨h.2.2.2.1 (-5) rfl (by norm_num), h.1 false rfl,
    h.2.2.2.2.2.2.2.2.2.2.2.2⟩

/-! ## Claim C10: update is not atomic with respect to persistence -/

/-- C10: the valid fields are applied in memory before the persist is
attempted, so when the persist fails the call returns false while the
in-memory config keeps the merged values — identical to what a
successful persist would leave — rather than rolling back. -/
theorem updateConfig_notAtomic (cfg : Config) (nc : PartialConfig) :
    (updateConfig cfg nc false).returned = false ∧
    (updateConfig cfg nc false).newCfg = mergeConfig cfg nc ∧
    (updateConfig cfg nc false).newCfg = (updateConfig cfg nc true).newCfg ∧
    (∀ n, nc.maxRecordsPerKey = some n → 0 < n →
      (updateConfig cfg nc false).newCfg.maxRecordsPerKey = n) ∧
    (∀ b, nc.enableHistoryLogging = some b →
      (updateConfig cfg nc false).newCfg.enableHistoryLogging = b) := by
  refine ⟨rfl, rfl, rfl, ?_, ?_⟩
  · intro n hn hpos
    simp [updateConfig, mergeConfig, applyNumField, hn, hpos]
  · intro b hb
    simp [updateConfig, mergeConfig, hb]

/-- C10 witness: with a failing persist, the valid maxRecordsPerKey
2000 stays applied in memory while false is returned. -/
theorem updateConfig_notAtomic_witness :
    (updateConfig defaultConfig validPartial false).returned = false ∧
    (updateConfig defaultConfig validPartial false).newCfg.maxRecordsPerKey
      = 2000 := by
  have h := updateConfig_notAtomic defaultConfig validPartial
  exact ⟨h.1, h.2.2.2.1 2000 rfl (by norm_num)⟩

/-! ## Claim C1: complete then get -/

/-- C1: with logging enabled and a nonempty id, completing a record
created by start and fetching it yields status success, duration equal
to endTime minus the startTime stored at start, and totalTokens equal
to the sum of the four token counters with each missing counter
treated as 0. -/
theorem completeRequest_spec (cfg : Config) (store : Store) (rd : RequestData)
    (requestId timestamp : String) (now : Int) (resp : ResponseData)
    (endTime : Int)
    (hlog : cfg.enableHistoryLogging = true) (hrid : requestId ≠ "") :
    ∃ rec,
      getRequestDetails
        (completeRequest cfg (startRequest cfg store rd requestId timestamp now).1
          requestId resp endTime) requestId = some rec ∧
      rec.status = "success" ∧
      rec.startTime = now ∧
      rec.endTime = some endTime ∧
      rec.duration = some (endTime - now) ∧
      rec.totalTokens = some (resp.inputTokens.getD 0 + resp.outputTokens.getD 0 +
        resp.cacheCreateTokens.getD 0 + resp.cacheReadTokens.getD 0) := by
  have hget := completeRequest_get cfg _ requestId resp endTime _ hlog hrid
    (startRequest_get cfg store rd requestId timestamp now hlog) rfl
  refine ⟨_, hget, rfl, rfl, rfl, rfl, ?_⟩
  simp [completedRecord, jsOrInt_zero]

/-- C1 witness: at a concrete run with inputTokens 3, missing
outputTokens, cacheCreateTokens 2 and missing cacheReadTokens, the
fetched record is successful with duration 4 and the expected sum. -/
theorem completeRequest_spec_witness :
    ∃ rec,
      getRequestDetails
        (completeRequest defaultConfig
          (startRequest defaultConfig [] sampleRequestData "id1" "ts" 5).1
          "id1" sampleResponseData 9) "id1" = some rec ∧
      rec.status = "success" ∧
      rec.startTime = 5 ∧
      rec.endTime = some 9 ∧
      rec.duration = some (9 - 5) ∧
      rec.totalTokens = some (sampleResponseData.inputTokens.getD 0 +
        sampleResponseData.outputTokens.getD 0 +
        sampleResponseData.cacheCreateTokens.getD 0 +
        sampleResponseData.cacheReadTokens.getD 0) :=
  completeRequest_spec defaultConfig [] sampleRequestData "id1" "ts" 5
    sampleResponseData 9 rfl (by decide)

/-! ## Claim C5: fail then get -/

/-- C5 counterexample: a fail call supplying statusCode 0 and an empty
error string stores 500 and the default message, not the supplied
values, because the JavaScript or-defaults also replace falsy present
values; the claim as stated requires the supplied statusCode 0 and
empty string to be stored. -/
theorem failRequest_counterexample :
    ∃ rec,
      getRequestDetails
        (failRequest defaultConfig
          (startRequest defaultConfig [] sampleRequestData "id1" "ts" 5).1
          "id1" falsyErrorData 9) "id1" = some rec ∧
      rec.statusCode = some 500 ∧
      rec.error = some "Unknown error" ∧
      rec.statusCode ≠ falsyErrorData.statusCode ∧
      rec.error ≠ falsyErrorData.error := by
  refine ⟨_, rfl, rfl, rfl, by decide, by decide⟩

/-- C5 amended: fetching after a fail yields status error; statusCode
is the supplied one when it is nonzero and 500 when it is absent or 0;
the error message is the supplied one when it is nonempty and the
default Unknown error when it is absent or empty. -/
theorem failRequest_spec (cfg : Config) (store : Store) (rd : RequestData)
    (requestId timestamp : String) (now : Int) (ed : ErrorData)
    (endTime : Int)
    (hlog : cfg.enableHistoryLogging = true) (hrid : requestId ≠ "") :
    ∃ rec,
      getRequestDetails
        (failRequest cfg (startRequest cfg store rd requestId timestamp now).1
          requestId ed endTime) requestId = some rec ∧
      rec.status = "error" ∧
      (ed.statusCode = none → rec.statusCode = some 500) ∧
      (∀ n, ed.statusCode = some n → n ≠ 0 → rec.statusCode = some n) ∧
      (ed.statusCode = some 0 → rec.statusCode = some 500) ∧
      (ed.error = none → rec.error = some "Unknown error") ∧
      (∀ s, ed.error = some s → s ≠ "" → rec.error = some s) ∧
      (ed.error = some "" → rec.error = some "Unknown error") := by
  have hget := failRequest_get cfg _ requestId ed endTime _ hlog hrid
    (startRequest_get cfg store rd requestId timestamp now hlog) rfl
  refine ⟨_, hget, rfl, ?_, ?_, ?_, ?_, ?_, ?_⟩
  · intro h
    simp [failedRecord, jsOrInt, h]
  · intro n hn hn0
    simp [failedRecord, jsOrInt, hn, hn0]
  · intro h
    simp [failedRecord, jsOrInt, h]
  · intro h
    simp [failedRecord, jsOrStr, h]
  · intro s hs hs0
    simp [failedRecord, jsOrStr, hs, hs0]
  · intro h
    simp [failedRecord, jsOrStr, h]

/-- C5 witness: a fail call supplying neither statusCode nor error
message stores status error, statusCode 500 and Unknown error. -/
theorem failRequest_spec_witness :
    ∃ rec,
      getRequestDetails
        (failRequest defaultConfig
          (startRequest defaultConfig [] sampleRequestData "id1" "ts" 5).1
          "id1" emptyErrorData 9) "id1" = some rec ∧
      rec.status = "error" ∧
      rec.statusCode = some 500 ∧
      rec.error = some "Unknown error" := by
  obtain ⟨rec, hget, hstat, hsc, _, _, herr, _, _⟩ :=
    failRequest_spec defaultConfig [] sampleRequestData "id1" "ts" 5
      emptyErrorData 9 rfl (by decide)
  exact ⟨rec, hget, hstat, hsc rfl, herr rfl⟩

/-! ## Claim C7: request body truncation -/

/-- C7 counterexample: a request body whose serialization exceeds the
limit but which has no messages field is stored entirely unchanged —
no field of the stored body holds the truncation marker — while the
claim requires the messages payload of every oversized body to be
replaced by the marker. -/
theorem startRequest_truncation_counterexample :
    ((stringify (JsValue.obj noMessagesBody)).length : Int)
        > cfgTinyReq.maxRequestBodySize ∧
    ∃ rec,
      getRequestDetails
        (startRequest cfgTinyReq []
          { sampleRequestData with requestBody := some noMessagesBody }
          "id1" "ts" 5).1 "id1" = some rec ∧
      rec.requestBody = some noMessagesBody ∧
      getField noMessagesBody "messages" = none := by
  refine ⟨by decide, _, rfl, rfl, rfl⟩

/-- C7 amended: an oversized request body has its messages field
replaced by the fixed marker exactly when that field is present and
truthy, every other field being stored intact, while a body within
the limit is stored unmodified; an oversized body without a truthy
messages field is stored unchanged. -/
theorem startRequest_truncation_spec (cfg : Config) (store : Store)
    (rd : RequestData) (requestId timestamp : String) (now : Int)
    (fields : List (String × JsValue))
    (hlog : cfg.enableHistoryLogging = true)
    (hbody : rd.requestBody = some fields) :
    ∃ rec,
      getRequestDetails (startRequest cfg store rd requestId timestamp now).1
        requestId = some rec ∧
      (((stringify (JsValue.obj fields)).length : Int) > cfg.maxRequestBodySize ∧
          truthyOpt (getField fields "messages") = true →
        rec.requestBody
            = some (setField fields "messages" (JsValue.str truncationMarker)) ∧
        getField (setField fields "messages" (JsValue.str truncationMarker))
            "messages" = some (JsValue.str truncationMarker) ∧
        ∀ k, k ≠ "messages" →
          getField (setField fields "messages" (JsValue.str truncationMarker)) k
            = getField fields k) ∧
      (((stringify (JsValue.obj fields)).length : Int) > cfg.maxRequestBodySize ∧
          truthyOpt (getField fields "messages") = false →
        rec.requestBody = some fields) ∧
      (¬ ((stringify (JsValue.obj fields)).length : Int) > cfg.maxRequestBodySize →
        rec.requestBody = some fields) := by
  refine ⟨_, startRequest_get cfg store rd requestId timestamp now hlog,
    ?_, ?_, ?_⟩
  · rintro ⟨hover, hmsg⟩
    refine ⟨?_, getField_setField_self _ _ _,
      fun k hk => getField_setField_ne _ _ _ _ hk⟩
    show truncateRequestBody cfg.maxRequestBodySize rd.requestBody = _
    rw [hbody, truncateRequestBody_over _ _ hover hmsg]
  · rintro ⟨hover, hmsg⟩
    show truncateRequestBody cfg.maxRequestBodySize rd.requestBody = _
    rw [hbody, truncateRequestBody_over_nomsg _ _ hover hmsg]
  · intro hsmall
    show truncateRequestBody cfg.maxRequestBodySize rd.requestBody = _
    rw [hbody, truncateRequestBody_small _ _ hsmall]

/-- C7 witness: an oversized body with a truthy messages field is
stored with the marker in place of messages and the model field
untouched. -/
theorem startRequest_truncation_spec_witness :
    ∃ rec,
      getRequestDetails
        (startRequest cfgTinyReq []
          { sampleRequestData with requestBody := some messagesBody }
          "id1" "ts" 5).1 "id1" = some rec ∧
      rec.requestBody
          = some (setField messagesBody "messages" (JsValue.str truncationMarker)) ∧
      getField (setField messagesBody "messages" (JsValue.str truncationMarker))
          "messages" = some (JsValue.str truncationMarker) ∧
      getField (setField messagesBody "messages" (JsValue.str truncationMarker))
          "model" = getField messagesBody "model" := by
  obtain ⟨rec, hget, hbig, _, _⟩ :=
    startRequest_truncation_spec cfgTinyReq []
      { sampleRequestData with requestBody := some messagesBody }
      "id1" "ts" 5 messagesBody rfl rfl
  obtain ⟨h1, h2, h3⟩ := hbig ⟨by decide, rfl⟩
  exact ⟨rec, hget, h1, h2, h3 "model" (by decide)⟩

/-! ## Claim C9: oversized body without messages is untouched -/

/-- C9: with logging enabled, an oversized request body that has no
truthy messages field is stored exactly as supplied with no truncation
marker inserted. -/
theorem startRequest_noTruncation_spec (cfg : Config) (store : Store)
    (rd : RequestData) (requestId timestamp : String) (now : Int)
    (fields : List (String × JsValue))
    (hlog : cfg.enableHistoryLogging = true)
    (hbody : rd.requestBody = some fields)
    (hover : ((stringify (JsValue.obj fields)).length : Int)
        > cfg.maxRequestBodySize)
    (hmsg : truthyOpt (getField fields "messages") = false) :
    ∃ rec,
      getRequestDetails (startRequest cfg store rd requestId timestamp now).1
        requestId = some rec ∧
      rec.requestBody = rd.requestBody ∧
      rec.requestBody = some fields := by
  refine ⟨_, startRequest_get cfg store rd requestId timestamp now hlog, ?_, ?_⟩
  · show truncateRequestBody cfg.maxRequestBodySize rd.requestBody = _
    rw [hbody, truncateRequestBody_over_nomsg _ _ hover hmsg]
  · show truncateRequestBody cfg.maxRequestBodySize rd.requestBody = _
    rw [hbody, truncateRequestBody_over_nomsg _ _ hover hmsg]

/-- C9 witness: at the concrete oversized body without messages, the
stored body equals the supplied one. -/
theorem startRequest_noTruncation_spec_witness :
    ∃ rec,
      getRequestDetails
        (startRequest cfgTinyReq []
          { sampleRequestData with requestBody := some noMessagesBody }
          "id1" "ts" 5).1 "id1" = some rec ∧
      rec.requestBody
          = ({ sampleRequestData with
                requestBody := some noMessagesBody } : RequestData).requestBody ∧
      rec.requestBody = some noMessagesBody :=
  startRequest_noTruncation_spec cfgTinyReq []
    { sampleRequestData with requestBody := some noMessagesBody }
    "id1" "ts" 5 noMessagesBody rfl rfl (by decide) rfl

/-! ## Claim C8: response body truncation -/

/-- C8 counterexample: a response body that is falsy (the empty JSON
string) but whose serialization exceeds the limit is stored unchanged
rather than replaced by the structural summary, because the source
guards the truncation on the truthiness of the body; the claim as
stated requires every oversized response body to be summarized. -/
theorem completeRequest_truncation_counterexample :
    ((stringify (JsValue.str "")).length : Int)
        > cfgTinyResp.maxResponseBodySize ∧
    ∃ rec,
      getRequestDetails
        (completeRequest cfgTinyResp
          (startRequest cfgTinyResp [] sampleRequestData "id1" "ts" 5).1
          "id1" { sampleResponseData with responseBody := some (JsValue.str "") }
          9) "id1" = some rec ∧
      rec.responseBody = some (JsValue.str "") ∧
      ∀ fs, rec.responseBody ≠ some (JsValue.obj fs) := by
  refine ⟨by decide, _, rfl, rfl, ?_⟩
  intro fs h
  have h2 : some (JsValue.str "") = some (JsValue.obj fs) := h
  simp at h2

/-- C8 amended: a truthy response body whose serialization exceeds
the limit is replaced by the structural summary with type truncated,
originalLength the serialized size, and preview the first 1000
characters plus an ellipsis — at most 1003 characters — while a falsy
body is stored unmodified even when oversized and a body within the
limit is stored unmodified. -/
theorem completeRequest_truncation_spec (cfg : Config) (store : Store)
    (rd : RequestData) (requestId timestamp : String) (now : Int)
    (resp : ResponseData) (endTime : Int) (v : JsValue)
    (hlog : cfg.enableHistoryLogging = true) (hrid : requestId ≠ "")
    (hbody : resp.responseBody = some v) :
    ∃ rec,
      getRequestDetails
        (completeRequest cfg (startRequest cfg store rd requestId timestamp now).1
          requestId resp endTime) requestId = some rec ∧
      (truthy v = true ∧ ((stringify v).length : Int) > cfg.maxResponseBodySize →
        rec.responseBody
            = some (JsValue.obj
                [("type", JsValue.str "truncated"),
                 ("originalLength", JsValue.num ((stringify v).length : Int)),
                 ("preview",
                  JsValue.str (jsSubstring (stringify v) 1000 ++ "..."))]) ∧
        (jsSubstring (stringify v) 1000 ++ "...").length ≤ 1003) ∧
      (truthy v = false → rec.responseBody = some v) ∧
      (¬ ((stringify v).length : Int) > cfg.maxResponseBodySize →
        rec.responseBody = some v) := by
  have hget := completeRequest_get cfg _ requestId resp endTime _ hlog hrid
    (startRequest_get cfg store rd requestId timestamp now hlog) rfl
  refine ⟨_, hget, ?_, ?_, ?_⟩
  · rintro ⟨htr, hover⟩
    constructor
    · show truncateResponseBody cfg.maxResponseBodySize resp.responseBody = _
      rw [hbody, truncateResponseBody_over _ _ htr hover]
    · exact jsSubstring_append_length _
  · intro hfalsy
    show truncateResponseBody cfg.maxResponseBodySize resp.responseBody = _
    rw [hbody, truncateResponseBody_falsy _ _ hfalsy]
  · intro hsmall
    show truncateResponseBody cfg.maxResponseBodySize resp.responseBody = _
    rw [hbody, truncateResponseBody_small _ _ hsmall]

/-- C8 witness: at a concrete oversized truthy response body, the
stored body is the structural summary and its preview stays within
1003 characters. -/
theorem completeRequest_truncation_spec_witness :
    ∃ rec,
      getRequestDetails
        (completeRequest cfgTinyResp
          (startRequest cfgTinyResp [] sampleRequestData "id1" "ts" 5).1
          "id1"
          { sampleResponseData with responseBody := some (JsValue.str "hello") }
          9) "id1" = some rec ∧
      rec.responseBody
          = some (JsValue.obj
              [("type", JsValue.str "truncated"),
               ("originalLength",
                JsValue.num ((stringify (JsValue.str "hello")).length : Int)),
               ("preview",
                JsValue.str
                  (jsSubstring (stringify (JsValue.str "hello")) 1000 ++ "..."))]) ∧
      (jsSubstring (stringify (JsValue.str "hello")) 1000 ++ "...").length
          ≤ 1003 := by
  obtain ⟨rec, hget, hbig, _, _⟩ :=
    completeRequest_truncation_spec cfgTinyResp [] sampleRequestData "id1" "ts" 5
      { sampleResponseData with responseBody := some (JsValue.str "hello") } 9
      (JsValue.str "hello") rfl (by decide) rfl
  obtain ⟨h1, h2⟩ := hbig ⟨rfl, by decide⟩
  exact ⟨rec, hget, h1, h2⟩

end RequestHistory
